import Mathlib

/-!
Shallow embedding of the Blood-Bank Data Management System (`src/app.py`).

The application is a Flask web app over a MySQL database.  We embed the
database state as lists of rows (one list per table) and each request
handler as a pure function from the database state (plus the parsed form
inputs) to a new database state together with the flash message it emits.

Modelling conventions, matching the source:
  * SQL `DATE` values are a `Date` structure (year, month, day) with the
    validity rules of Python's `datetime.date` (years 1..9999, day bounded
    by the month length, leap years as in the Gregorian calendar).
    `Date.replace(year := y)` is `dateReplaceYear`, returning `none` when
    Python would raise `ValueError`.
  * `ORDER BY expiry_date ASC` is modelled by `List.insertionSort` on the
    numeric key `dateKey` (lexicographic year/month/day order); any sorted
    permutation is a faithful model of the SQL ordering.
  * `flash(msg, category)` is modelled as a `Flash := String × String`
    pair `(category, message)`, with the messages built exactly as the
    Python f-strings build them (exception texts are abbreviated since the
    embedded operations carry no exception objects).
  * `str(uuid.uuid4())[:5].upper()` in bag-id generation is an external
    source of strings, modelled as an oracle `uuid : Nat → String` giving
    the string drawn at loop iteration `i`.
  * Transactionality: statements run inside one MySQL transaction that
    becomes visible only at `commit()`; `rollback()` discards the
    uncommitted statements.  The `_exc` variants of the handlers take a
    failure oracle `fail : Nat → Bool` saying which numbered SQL statement
    raises; a raised statement makes the handler return the *initial*
    database state (the rollback) together with the error flash of the
    `except` block and a flag recording that an exception occurred.
-/

/-- A calendar date as stored in the `DATE` columns, with Python
`datetime.date` semantics. -/
structure Date where
  year : Nat
  month : Nat
  day : Nat
deriving DecidableEq, Repr

/-- Gregorian leap-year rule, as used by Python's `calendar`/`datetime`. -/
def isLeapYear (y : Nat) : Bool :=
  y % 4 == 0 && (y % 100 != 0 || y % 400 == 0)

/-- Number of days in a month of a given year (Python `calendar.monthrange`). -/
def daysInMonth (y m : Nat) : Nat :=
  if m == 2 then (if isLeapYear y then 29 else 28)
  else if m == 4 || m == 6 || m == 9 || m == 11 then 30
  else 31

/-- Validity of a date per Python `datetime.date`: years `1..9999`,
months `1..12`, days `1..daysInMonth`. -/
def validDate (d : Date) : Bool :=
  1 ≤ d.year && d.year ≤ 9999 &&
  1 ≤ d.month && d.month ≤ 12 &&
  1 ≤ d.day && d.day ≤ daysInMonth d.year d.month

/-- Numeric key realising the calendar order on dates (the order `ORDER BY`
uses on a `DATE` column). -/
def dateKey (d : Date) : Nat :=
  d.year * 10000 + d.month * 100 + d.day

/-- `d.replace(year := y)` from `src/app.py` line 120: Python re-validates
the new field combination and raises `ValueError` on failure (e.g. Feb 29
mapped to a non-leap year); `none` models the raise. -/
def dateReplaceYear (d : Date) (y : Nat) : Option Date :=
  let d2 : Date := ⟨y, d.month, d.day⟩
  if validDate d2 then some d2 else none

/-- Status column of `Blood_Bag` (schema default `Quarantined`; the
transition to `Available` is made by a database trigger outside this code;
`fulfill_request` sets `Used`). -/
inductive BagStatus
  | quarantined
  | available
  | used
deriving DecidableEq, Repr

/-- `fulfillment_status` column of `Blood_Request`
(`Pending` → `Fulfilled`/`Rejected`). -/
inductive ReqStatus
  | pending
  | fulfilled
  | rejected
deriving DecidableEq, Repr

/-- A row of the `Donor` table (only the columns the handlers read). -/
structure DonorRow where
  donor_id : Nat
  blood_group : String
deriving DecidableEq, Repr

/-- A row of the `Blood_Bag` table. -/
structure BagRow where
  bag_id : String
  blood_group : String
  donation_date : Date
  expiry_date : Date
  donor_id : Nat
  status : BagStatus
deriving DecidableEq, Repr

/-- A row of the `Donation_Transaction` table. -/
structure TransRow where
  donor_id : Nat
  staff_id : Nat
  bag_id : String
deriving DecidableEq, Repr

/-- A row of the `Blood_Request` table. -/
structure RequestRow where
  request_id : Nat
  patient_id : Nat
  requested_group : String
  units_requested : Nat
  fulfillment_status : ReqStatus
deriving DecidableEq, Repr

/-- The database state: one list of rows per table touched by the
embedded handlers. -/
structure DB where
  donors : List DonorRow
  bags : List BagRow
  transactions : List TransRow
  requests : List RequestRow
deriving DecidableEq, Repr

/-- A flash message `(category, message)`, as produced by Flask's
`flash(message, category)`. -/
abbrev Flash := String × String

/-- Ordering relation used by `ORDER BY expiry_date ASC` on bag rows. -/
def bagLE (a b : BagRow) : Prop :=
  dateKey a.expiry_date ≤ dateKey b.expiry_date

instance : DecidableRel bagLE := fun _a _b => Nat.decLe _ _

instance : IsTotal BagRow bagLE := ⟨fun _a _b => Nat.le_total _ _⟩

instance : IsTrans BagRow bagLE := ⟨fun _ _ _ => Nat.le_trans⟩

/-- `SELECT ... FROM Blood_Bag WHERE blood_group = %s AND status = 'Available'`. -/
def availableBags (db : DB) (group : String) : List BagRow :=
  db.bags.filter (fun b => b.blood_group == group && b.status == BagStatus.available)

/-- The `sql_find_bag` query of `fulfill_request` (lines 282-290): the
available bags of the group, `ORDER BY expiry_date ASC LIMIT units_needed`. -/
def selectBags (db : DB) (group : String) (limit : Nat) : List BagRow :=
  (List.insertionSort bagLE (availableBags db group)).take limit

/-- The `sql_update_bags` statement (lines 297-302):
`UPDATE Blood_Bag SET status = 'Used' WHERE bag_id IN (...)`. -/
def markBagsUsed (bags : List BagRow) (ids : List String) : List BagRow :=
  bags.map (fun b => if ids.contains b.bag_id then { b with status := BagStatus.used } else b)

/-- The `sql_update_request` statements (lines 305-310 and 317-322):
`UPDATE Blood_Request SET fulfillment_status = %s WHERE request_id = %s`. -/
def setRequestStatus (l : List RequestRow) (rid : Nat) (s : ReqStatus) : List RequestRow :=
  l.map (fun r => if r.request_id == rid then { r with fulfillment_status := s } else r)

/-- `GET /request/fulfill/<request_id>` (`fulfill_request`, lines 264-332),
exception-free path.  Reads the request row, selects up to
`units_requested` available bags of the group by ascending expiry, and
either marks them `Used` and the request `Fulfilled`, or marks the request
`Rejected`. -/
def fulfill_request (db : DB) (request_id : Nat) : DB × Flash :=
  match db.requests.find? (fun r => r.request_id == request_id) with
  | none => (db, ("error", "Request not found."))
  | some req =>
    let available_bags := selectBags db req.requested_group req.units_requested
    if available_bags.length ≥ req.units_requested then
      let bag_ids_to_use := available_bags.map (fun b => b.bag_id)
      let db1 : DB := { db with bags := markBagsUsed db.bags bag_ids_to_use }
      let db2 : DB := { db1 with requests := setRequestStatus db1.requests request_id ReqStatus.fulfilled }
      (db2, ("success",
        "SUCCESS! Fulfilled Request ID " ++ toString request_id ++ ". " ++
        toString bag_ids_to_use.length ++ " units of " ++ req.requested_group ++ " stock used."))
    else
      ({ db with requests := setRequestStatus db.requests request_id ReqStatus.rejected },
       ("error",
        "FAILED. Not enough " ++ req.requested_group ++ " units in stock. Request ID " ++
        toString request_id ++ " rejected."))

/-- The bag-id format string of line 125:
`f"BAG-{blood_group}-{str(uuid.uuid4())[:5].upper()}-{i+1}"`. -/
def mkBagId (blood_group u : String) (i : Nat) : String :=
  "BAG-" ++ blood_group ++ "-" ++ u ++ "-" ++ toString (i + 1)

/-- The `Blood_Bag` rows inserted by the loop of `record_donation`
(lines 124-132); status defaults to `Quarantined` per the schema. -/
def newBagRows (group : String) (dd exp : Date) (donor_id : Nat)
    (uuid : Nat → String) (n : Nat) : List BagRow :=
  (List.range n).map (fun i => ⟨mkBagId group (uuid i) i, group, dd, exp, donor_id, BagStatus.quarantined⟩)

/-- The `Donation_Transaction` rows inserted by the loop of
`record_donation` (lines 134-139). -/
def newTransRows (donor_id staff_id : Nat) (group : String)
    (uuid : Nat → String) (n : Nat) : List TransRow :=
  (List.range n).map (fun i => ⟨donor_id, staff_id, mkBagId group (uuid i) i⟩)

/-- `POST /donation/record` (`record_donation`, lines 92-153), exception-free
path.  `units_donated` is `int(details['units_donated'])`, hence an `Int`;
`donation_date` is the already-`strptime`-parsed form date.  The loop
`for i in range(units_donated)` runs `units_donated.toNat` times (zero for
non-positive values, as `range` of a non-positive `int` is empty). -/
def record_donation (db : DB) (uuid : Nat → String) (donor_id staff_id : Nat)
    (units_donated : Int) (donation_date : Date) : DB × Flash :=
  if units_donated > 3 then
    (db, ("error", "Error: Cannot donate more than 3 units in a single session."))
  else
    match db.donors.find? (fun d => d.donor_id == donor_id) with
    | none =>
      -- `raise Exception(f"Donor ID {donor_id} not found.")`, caught at line 148.
      (db, ("error", "Donation failed. Error: Donor ID " ++ toString donor_id ++ " not found."))
    | some donor =>
      match dateReplaceYear donation_date (donation_date.year + 1) with
      | none =>
        -- `ValueError` from `date.replace`, caught at line 148, transaction rolled back.
        (db, ("error", "Donation failed. Error: day is out of range for month"))
      | some expiry_date =>
        let n := units_donated.toNat
        let bags := newBagRows donor.blood_group donation_date expiry_date donor_id uuid n
        let trans := newTransRows donor_id staff_id donor.blood_group uuid n
        ({ db with bags := db.bags ++ bags, transactions := db.transactions ++ trans },
         ("success",
          "Success! " ++ toString n ++ " units recorded. Stock updated (Trigger Verified " ++
          toString n ++ " times)."))

/-- `fulfill_request` with its SQL statements numbered and a failure
oracle `fail` telling which of them raises (0: `SELECT` the request row,
1: `sql_find_bag`, then 2: `sql_update_bags` and 3: `sql_update_request`
on the fulfilling branch, or 2: `sql_update_request` on the rejecting
branch).  A raise lands in the `except` block of lines 328-330: the
transaction is rolled back — the returned state is the initial `db`, the
uncommitted updates being discarded — and the error flash is emitted.
The third component records whether an exception was raised. -/
def fulfill_request_exc (fail : Nat → Bool) (db : DB) (request_id : Nat) :
    DB × Flash × Bool :=
  let excFlash : Flash := ("error", "An unexpected error occurred during fulfillment.")
  if fail 0 then (db, excFlash, true)
  else
    match db.requests.find? (fun r => r.request_id == request_id) with
    | none => (db, ("error", "Request not found."), false)
    | some req =>
      if fail 1 then (db, excFlash, true)
      else
        let available_bags := selectBags db req.requested_group req.units_requested
        if available_bags.length ≥ req.units_requested then
          if fail 2 then (db, excFlash, true)
          else if fail 3 then (db, excFlash, true)
          else
            let bag_ids_to_use := available_bags.map (fun b => b.bag_id)
            let db1 : DB := { db with bags := markBagsUsed db.bags bag_ids_to_use }
            let db2 : DB :=
              { db1 with requests := setRequestStatus db1.requests request_id ReqStatus.fulfilled }
            (db2, ("success",
              "SUCCESS! Fulfilled Request ID " ++ toString request_id ++ ". " ++
              toString bag_ids_to_use.length ++ " units of " ++ req.requested_group ++
              " stock used."), false)
        else
          if fail 2 then (db, excFlash, true)
          else
            ({ db with requests := setRequestStatus db.requests request_id ReqStatus.rejected },
             ("error",
              "FAILED. Not enough " ++ req.requested_group ++ " units in stock. Request ID " ++
              toString request_id ++ " rejected."), false)

/-- `record_donation` with its SQL statements numbered and a failure
oracle (0: the donor `SELECT`; statements `1 .. 2*units` are the pairs of
`INSERT`s of the per-unit loop).  The donor-not-found `raise` and the
`ValueError` of `date.replace` are genuine exceptions as well, so they
set the raised flag; every raise lands in the `except` of lines 148-150:
rollback to the initial state plus the error flash. -/
def record_donation_exc (fail : Nat → Bool) (db : DB) (uuid : Nat → String)
    (donor_id staff_id : Nat) (units_donated : Int) (donation_date : Date) :
    DB × Flash × Bool :=
  if units_donated > 3 then
    -- early `return`, no exception and no transaction
    (db, ("error", "Error: Cannot donate more than 3 units in a single session."), false)
  else if fail 0 then
    (db, ("error", "Donation failed."), true)
  else
    match db.donors.find? (fun d => d.donor_id == donor_id) with
    | none =>
      (db, ("error", "Donation failed. Error: Donor ID " ++ toString donor_id ++ " not found."),
       true)
    | some donor =>
      match dateReplaceYear donation_date (donation_date.year + 1) with
      | none =>
        (db, ("error", "Donation failed. Error: day is out of range for month"), true)
      | some expiry_date =>
        let n := units_donated.toNat
        if (List.range (2 * n)).any (fun k => fail (k + 1)) then
          (db, ("error", "Donation failed."), true)
        else
          let bags := newBagRows donor.blood_group donation_date expiry_date donor_id uuid n
          let trans := newTransRows donor_id staff_id donor.blood_group uuid n
          ({ db with bags := db.bags ++ bags, transactions := db.transactions ++ trans },
           ("success",
            "Success! " ++ toString n ++ " units recorded. Stock updated (Trigger Verified " ++
            toString n ++ " times)."), false)

/-- `get_dashboard_stats` (lines 24-37).  `fail1`/`fail2` say whether the
first (donor count) or second (available-stock count) query raises; the
broad `except` swallows the exception, leaving the fields still holding
their initial `0`. -/
structure Stats where
  donor_count : Nat
  stock_count : Nat
deriving DecidableEq, Repr

def get_dashboard_stats (db : DB) (fail1 fail2 : Bool) : Stats :=
  let stats : Stats := ⟨0, 0⟩
  if fail1 then stats
  else
    let stats : Stats := { stats with donor_count := db.donors.length }
    if fail2 then stats
    else { stats with
      stock_count := (db.bags.filter (fun b => b.status == BagStatus.available)).length }

/-- Concrete sample data used to instantiate the theorems. -/
def wBag : BagRow := ⟨"B1", "A+", ⟨2025, 1, 1⟩, ⟨2026, 1, 1⟩, 1, BagStatus.available⟩

/-- A second available bag, expiring later than `wBag`. -/
def wBag2 : BagRow := ⟨"B2", "A+", ⟨2025, 3, 1⟩, ⟨2026, 3, 1⟩, 1, BagStatus.available⟩

/-- A pending request for 1 unit of A+ (satisfiable in `wDB`). -/
def wReq : RequestRow := ⟨1, 1, "A+", 1, ReqStatus.pending⟩

/-- A pending request for 5 units of A+ (not satisfiable in `wDB`). -/
def wReq5 : RequestRow := ⟨2, 2, "A+", 5, ReqStatus.pending⟩

/-- A request whose status is already terminal (`Rejected`). -/
def wReqDone : RequestRow := ⟨3, 3, "A+", 1, ReqStatus.rejected⟩

/-- A sample database: one donor, two available A+ bags, three requests. -/
def wDB : DB := ⟨[⟨1, "A+"⟩], [wBag, wBag2], [], [wReq, wReq5, wReqDone]⟩

/-- A constant uuid oracle for the concrete instances. -/
def wUuid : Nat → String := fun _ => "ABCDE"

/-- Count of `Blood_Bag` rows with the given group and status `Available`
(what `SELECT COUNT(*) ... WHERE blood_group = %s AND status = 'Available'`
would return). -/
def availCount (db : DB) (group : String) : Nat :=
  (availableBags db group).length

lemma length_selectBags (db : DB) (g : String) (n : Nat) :
    (selectBags db g n).length = min n (availCount db g) := by
  unfold selectBags availCount
  rw [List.length_take, List.length_insertionSort]

lemma selectBags_length_ge_iff (db : DB) (g : String) (n : Nat) :
    (selectBags db g n).length ≥ n ↔ availCount db g ≥ n := by
  rw [length_selectBags]
  omega

lemma find?_setRequestStatus {l : List RequestRow} {rid : Nat} {req : RequestRow}
    (s : ReqStatus) (h : l.find? (fun r => r.request_id == rid) = some req) :
    (setRequestStatus l rid s).find? (fun r => r.request_id == rid) =
      some { req with fulfillment_status := s } := by
  induction l with
  | nil => simp at h
  | cons a l ih =>
    cases ha : (a.request_id == rid) with
    | true =>
      rw [List.find?_cons_of_pos (p := fun r : RequestRow => r.request_id == rid) _ ha] at h
      injection h with h
      subst h
      simp only [setRequestStatus, List.map_cons, if_pos ha]
      exact List.find?_cons_of_pos (p := fun r : RequestRow => r.request_id == rid) _ ha
    | false =>
      have ha' : ¬((fun r : RequestRow => r.request_id == rid) a = true) := by simp [ha]
      rw [List.find?_cons_of_neg (p := fun r : RequestRow => r.request_id == rid) _ ha'] at h
      simp only [setRequestStatus, List.map_cons,
        if_neg (by simp [ha] : ¬(a.request_id == rid) = true)]
      rw [List.find?_cons_of_neg (p := fun r : RequestRow => r.request_id == rid) _ ha']
      exact ih h

lemma fulfill_request_of_ge (db : DB) (rid : Nat) (req : RequestRow)
    (h : db.requests.find? (fun r => r.request_id == rid) = some req)
    (hc : availCount db req.requested_group ≥ req.units_requested) :
    fulfill_request db rid =
      ({ db with
          bags := markBagsUsed db.bags
            ((selectBags db req.requested_group req.units_requested).map (fun b => b.bag_id)),
          requests := setRequestStatus db.requests rid ReqStatus.fulfilled },
       ("success",
        "SUCCESS! Fulfilled Request ID " ++ toString rid ++ ". " ++
        toString ((selectBags db req.requested_group req.units_requested).map
          (fun b => b.bag_id)).length ++ " units of " ++ req.requested_group ++
        " stock used.")) := by
  have hsel : (selectBags db req.requested_group req.units_requested).length ≥
      req.units_requested := (selectBags_length_ge_iff db _ _).mpr hc
  simp only [fulfill_request, h]
  rw [if_pos hsel]

lemma fulfill_request_of_lt (db : DB) (rid : Nat) (req : RequestRow)
    (h : db.requests.find? (fun r => r.request_id == rid) = some req)
    (hc : availCount db req.requested_group < req.units_requested) :
    fulfill_request db rid =
      ({ db with requests := setRequestStatus db.requests rid ReqStatus.rejected },
       ("error",
        "FAILED. Not enough " ++ req.requested_group ++ " units in stock. Request ID " ++
        toString rid ++ " rejected.")) := by
  have hsel : ¬((selectBags db req.requested_group req.units_requested).length ≥
      req.units_requested) := fun hx =>
    absurd ((selectBags_length_ge_iff db _ _).mp hx) (by omega)
  simp only [fulfill_request, h]
  rw [if_neg hsel]

/-- C1: For every blood request processed by the fulfillment handler on an
existing request, the request's `fulfillment_status` is set to `Fulfilled`
iff the number of `Blood_Bag` rows with the requested blood group and
status `Available` is at least the requested quantity, and otherwise it is
set to `Rejected`. -/
theorem C1_fulfill_status_iff_stock (db : DB) (request_id : Nat) (req : RequestRow)
    (h : db.requests.find? (fun r => r.request_id == request_id) = some req) :
    ((fulfill_request db request_id).1.requests.find? (fun r => r.request_id == request_id) =
        some { req with fulfillment_status := ReqStatus.fulfilled } ↔
      availCount db req.requested_group ≥ req.units_requested) ∧
    ((fulfill_request db request_id).1.requests.find? (fun r => r.request_id == request_id) =
        some { req with fulfillment_status := ReqStatus.rejected } ↔
      availCount db req.requested_group < req.units_requested) := by
  by_cases hc : availCount db req.requested_group ≥ req.units_requested
  · rw [fulfill_request_of_ge db request_id req h hc]
    simp only [find?_setRequestStatus ReqStatus.fulfilled h]
    refine ⟨⟨fun _ => hc, fun _ => trivial⟩, ⟨fun hx => ?_, fun hx => absurd hc (by omega)⟩⟩
    simp at hx
  · have hlt : availCount db req.requested_group < req.units_requested := by omega
    rw [fulfill_request_of_lt db request_id req h hlt]
    simp only [find?_setRequestStatus ReqStatus.rejected h]
    refine ⟨⟨fun hx => ?_, fun hx => absurd hx hc⟩, ⟨fun _ => hlt, fun _ => trivial⟩⟩
    simp at hx

/-- Witness for C1 at the concrete database `wDB` and request 1. -/
theorem C1_fulfill_status_iff_stock_witness :
    wDB.requests.find? (fun r => r.request_id == 1) = some wReq ∧
    (((fulfill_request wDB 1).1.requests.find? (fun r => r.request_id == 1) =
        some { wReq with fulfillment_status := ReqStatus.fulfilled } ↔
      availCount wDB wReq.requested_group ≥ wReq.units_requested) ∧
     ((fulfill_request wDB 1).1.requests.find? (fun r => r.request_id == 1) =
        some { wReq with fulfillment_status := ReqStatus.rejected } ↔
      availCount wDB wReq.requested_group < wReq.units_requested)) :=
  ⟨by decide, C1_fulfill_status_iff_stock wDB 1 wReq (by decide)⟩

/-- C2: When the handler fulfills a request for quantity N, the bags it
marks `Used` are exactly the N bags selected by the `sql_find_bag` query —
N `Available` bags of the requested group — and none of the remaining
available matching bags expires earlier than any selected bag. -/
theorem C2_fulfill_uses_earliest (db : DB) (request_id : Nat) (req : RequestRow)
    (h : db.requests.find? (fun r => r.request_id == request_id) = some req)
    (hge : availCount db req.requested_group ≥ req.units_requested) :
    (selectBags db req.requested_group req.units_requested).length = req.units_requested ∧
    (fulfill_request db request_id).1.bags =
      markBagsUsed db.bags
        ((selectBags db req.requested_group req.units_requested).map (fun b => b.bag_id)) ∧
    (∀ b ∈ selectBags db req.requested_group req.units_requested,
      b ∈ db.bags ∧ b.blood_group = req.requested_group ∧ b.status = BagStatus.available) ∧
    (∀ b ∈ selectBags db req.requested_group req.units_requested,
      ∀ c ∈ db.bags, c.blood_group = req.requested_group → c.status = BagStatus.available →
        c ∉ selectBags db req.requested_group req.units_requested →
        dateKey b.expiry_date ≤ dateKey c.expiry_date) := by
  refine ⟨?_, ?_, ?_, ?_⟩
  · rw [length_selectBags]
    omega
  · rw [fulfill_request_of_ge db request_id req h hge]
  · intro b hb
    have hmem : b ∈ availableBags db req.requested_group := by
      have h1 : b ∈ List.insertionSort bagLE (availableBags db req.requested_group) :=
        List.mem_of_mem_take hb
      exact (List.mem_insertionSort bagLE).mp h1
    have h2 := List.mem_filter.mp hmem
    refine ⟨h2.1, ?_, ?_⟩
    · have := h2.2
      simp only [Bool.and_eq_true, beq_iff_eq] at this
      exact this.1
    · have := h2.2
      simp only [Bool.and_eq_true, beq_iff_eq] at this
      exact this.2
  · intro b hb c hc hgroup hstatus hnotsel
    have hcav : c ∈ availableBags db req.requested_group :=
      List.mem_filter.mpr ⟨hc, by simp [hgroup, hstatus]⟩
    have hcL : c ∈ List.insertionSort bagLE (availableBags db req.requested_group) :=
      (List.mem_insertionSort bagLE).mpr hcav
    have hsplit :=
      List.take_append_drop req.units_requested
        (List.insertionSort bagLE (availableBags db req.requested_group))
    have hcdrop : c ∈ (List.insertionSort bagLE
        (availableBags db req.requested_group)).drop req.units_requested := by
      rw [← hsplit] at hcL
      rcases List.mem_append.mp hcL with hct | hcd
      · exact absurd hct hnotsel
      · exact hcd
    have hsorted : List.Sorted bagLE
        (List.insertionSort bagLE (availableBags db req.requested_group)) :=
      List.sorted_insertionSort bagLE _
    rw [← hsplit] at hsorted
    have hcross := (List.pairwise_append.mp hsorted).2.2
    exact hcross b hb c hcdrop

/-- Witness for C2 at the concrete database `wDB` and request 1. -/
theorem C2_fulfill_uses_earliest_witness :
    (wDB.requests.find? (fun r => r.request_id == 1) = some wReq ∧
     availCount wDB wReq.requested_group ≥ wReq.units_requested) ∧
    ((selectBags wDB wReq.requested_group wReq.units_requested).length = wReq.units_requested ∧
     (fulfill_request wDB 1).1.bags =
       markBagsUsed wDB.bags
         ((selectBags wDB wReq.requested_group wReq.units_requested).map (fun b => b.bag_id)) ∧
     (∀ b ∈ selectBags wDB wReq.requested_group wReq.units_requested,
       b ∈ wDB.bags ∧ b.blood_group = wReq.requested_group ∧ b.status = BagStatus.available) ∧
     (∀ b ∈ selectBags wDB wReq.requested_group wReq.units_requested,
       ∀ c ∈ wDB.bags, c.blood_group = wReq.requested_group → c.status = BagStatus.available →
         c ∉ selectBags wDB wReq.requested_group wReq.units_requested →
         dateKey b.expiry_date ≤ dateKey c.expiry_date)) :=
  ⟨⟨by decide, by decide⟩, C2_fulfill_uses_earliest wDB 1 wReq (by decide) (by decide)⟩

/-- C3: When the handler rejects a request (fewer matching available bags
than requested), every `Blood_Bag` row — and every other table — is left
unchanged; only the request's `fulfillment_status` is modified. -/
theorem C3_reject_leaves_bags_unchanged (db : DB) (request_id : Nat) (req : RequestRow)
    (h : db.requests.find? (fun r => r.request_id == request_id) = some req)
    (hlt : availCount db req.requested_group < req.units_requested) :
    (fulfill_request db request_id).1.bags = db.bags ∧
    (fulfill_request db request_id).1.donors = db.donors ∧
    (fulfill_request db request_id).1.transactions = db.transactions ∧
    (fulfill_request db request_id).1.requests =
      setRequestStatus db.requests request_id ReqStatus.rejected ∧
    (∀ r ∈ db.requests, r.request_id ≠ request_id →
      r ∈ (fulfill_request db request_id).1.requests) ∧
    (fulfill_request db request_id).1.requests.find? (fun r => r.request_id == request_id) =
      some { req with fulfillment_status := ReqStatus.rejected } := by
  rw [fulfill_request_of_lt db request_id req h hlt]
  refine ⟨rfl, rfl, rfl, rfl, ?_, ?_⟩
  · intro r hr hne
    show r ∈ setRequestStatus db.requests request_id ReqStatus.rejected
    unfold setRequestStatus
    refine List.mem_map.mpr ⟨r, hr, ?_⟩
    rw [if_neg (by simp [hne])]
  · exact find?_setRequestStatus ReqStatus.rejected h

/-- Witness for C3 at the concrete database `wDB` and request 2
(5 units requested, only 2 available). -/
theorem C3_reject_leaves_bags_unchanged_witness :
    (wDB.requests.find? (fun r => r.request_id == 2) = some wReq5 ∧
     availCount wDB wReq5.requested_group < wReq5.units_requested) ∧
    ((fulfill_request wDB 2).1.bags = wDB.bags ∧
     (fulfill_request wDB 2).1.donors = wDB.donors ∧
     (fulfill_request wDB 2).1.transactions = wDB.transactions ∧
     (fulfill_request wDB 2).1.requests =
       setRequestStatus wDB.requests 2 ReqStatus.rejected ∧
     (∀ r ∈ wDB.requests, r.request_id ≠ 2 → r ∈ (fulfill_request wDB 2).1.requests) ∧
     (fulfill_request wDB 2).1.requests.find? (fun r => r.request_id == 2) =
       some { wReq5 with fulfillment_status := ReqStatus.rejected }) :=
  ⟨⟨by decide, by decide⟩,
   C3_reject_leaves_bags_unchanged wDB 2 wReq5 (by decide) (by decide)⟩

/-- C4 is false as stated: request 3 of `wDB` already has the terminal
status `Rejected`, yet invoking the fulfillment handler on it again
changes the status to `Fulfilled` and marks a further bag `Used`. -/
theorem C4_terminal_status_counterexample :
    wReqDone.fulfillment_status = ReqStatus.rejected ∧
    wReqDone ∈ wDB.requests ∧
    (fulfill_request wDB 3).1.requests.find? (fun r => r.request_id == 3) =
      some { wReqDone with fulfillment_status := ReqStatus.fulfilled } ∧
    wBag ∈ wDB.bags ∧ wBag.status = BagStatus.available ∧
    { wBag with status := BagStatus.used } ∈ (fulfill_request wDB 3).1.bags := by
  decide

/-- C4 amended: the fulfillment handler never consults the current
`fulfillment_status`.  Invoked on an existing request whose status is
already terminal (`Fulfilled` or `Rejected`) it re-runs the allocation,
setting the status again according to the current stock — and marking
further bags `Used` when it fulfills — so a terminal status is overwritten
by repeated invocations on the same `request_id`. -/
theorem C4_refulfillment_overwrites_status (db : DB) (request_id : Nat) (req : RequestRow)
    (h : db.requests.find? (fun r => r.request_id == request_id) = some req)
    (_hterm : req.fulfillment_status = ReqStatus.fulfilled ∨
      req.fulfillment_status = ReqStatus.rejected) :
    (availCount db req.requested_group ≥ req.units_requested →
      (fulfill_request db request_id).1.requests.find? (fun r => r.request_id == request_id) =
        some { req with fulfillment_status := ReqStatus.fulfilled } ∧
      (fulfill_request db request_id).1.bags =
        markBagsUsed db.bags
          ((selectBags db req.requested_group req.units_requested).map (fun b => b.bag_id))) ∧
    (availCount db req.requested_group < req.units_requested →
      (fulfill_request db request_id).1.requests.find? (fun r => r.request_id == request_id) =
        some { req with fulfillment_status := ReqStatus.rejected }) := by
  constructor
  · intro hge
    rw [fulfill_request_of_ge db request_id req h hge]
    exact ⟨find?_setRequestStatus ReqStatus.fulfilled h, rfl⟩
  · intro hlt
    rw [fulfill_request_of_lt db request_id req h hlt]
    exact find?_setRequestStatus ReqStatus.rejected h

/-- Witness for the amended C4 at the concrete database `wDB` and the
already-rejected request 3. -/
theorem C4_refulfillment_overwrites_status_witness :
    (wDB.requests.find? (fun r => r.request_id == 3) = some wReqDone ∧
     (wReqDone.fulfillment_status = ReqStatus.fulfilled ∨
      wReqDone.fulfillment_status = ReqStatus.rejected)) ∧
    ((availCount wDB wReqDone.requested_group ≥ wReqDone.units_requested →
      (fulfill_request wDB 3).1.requests.find? (fun r => r.request_id == 3) =
        some { wReqDone with fulfillment_status := ReqStatus.fulfilled } ∧
      (fulfill_request wDB 3).1.bags =
        markBagsUsed wDB.bags
          ((selectBags wDB wReqDone.requested_group wReqDone.units_requested).map
            (fun b => b.bag_id))) ∧
     (availCount wDB wReqDone.requested_group < wReqDone.units_requested →
      (fulfill_request wDB 3).1.requests.find? (fun r => r.request_id == 3) =
        some { wReqDone with fulfillment_status := ReqStatus.rejected })) :=
  ⟨⟨by decide, by decide⟩,
   C4_refulfillment_overwrites_status wDB 3 wReqDone (by decide) (by decide)⟩

lemma record_donation_of_ok (db : DB) (uuid : Nat → String) (donor_id staff_id : Nat)
    (units_donated : Int) (d : Date) (donor : DonorRow) (expiry : Date)
    (hcap : ¬units_donated > 3)
    (hdonor : db.donors.find? (fun x => x.donor_id == donor_id) = some donor)
    (hrep : dateReplaceYear d (d.year + 1) = some expiry) :
    record_donation db uuid donor_id staff_id units_donated d =
      ({ db with
          bags := db.bags ++
            newBagRows donor.blood_group d expiry donor_id uuid units_donated.toNat,
          transactions := db.transactions ++
            newTransRows donor_id staff_id donor.blood_group uuid units_donated.toNat },
       ("success",
        "Success! " ++ toString units_donated.toNat ++
        " units recorded. Stock updated (Trigger Verified " ++
        toString units_donated.toNat ++ " times).")) := by
  simp only [record_donation, hdonor, hrep]
  rw [if_neg hcap]

/-- C5: A successful donation-recording POST of U units (existing donor,
U within the cap, expiry computable) appends exactly U new `Blood_Bag`
rows and exactly U new `Donation_Transaction` rows, and the i-th new
transaction references the i-th new bag. -/
theorem C5_donation_creates_U_rows (db : DB) (uuid : Nat → String)
    (donor_id staff_id : Nat) (U : Nat) (d : Date) (donor : DonorRow) (expiry : Date)
    (hcap : (U : Int) ≤ 3)
    (hdonor : db.donors.find? (fun x => x.donor_id == donor_id) = some donor)
    (hrep : dateReplaceYear d (d.year + 1) = some expiry) :
    (record_donation db uuid donor_id staff_id (U : Int) d).1.bags.length =
      db.bags.length + U ∧
    (record_donation db uuid donor_id staff_id (U : Int) d).1.transactions.length =
      db.transactions.length + U ∧
    ((record_donation db uuid donor_id staff_id (U : Int) d).1.transactions.drop
        db.transactions.length).map (fun t => t.bag_id) =
      ((record_donation db uuid donor_id staff_id (U : Int) d).1.bags.drop
        db.bags.length).map (fun b => b.bag_id) ∧
    (record_donation db uuid donor_id staff_id (U : Int) d).2.1 = "success" := by
  have hcap' : ¬(U : Int) > 3 := by omega
  rw [record_donation_of_ok db uuid donor_id staff_id (U : Int) d donor expiry hcap' hdonor hrep]
  have hU : ((U : Int)).toNat = U := by omega
  rw [hU]
  refine ⟨?_, ?_, ?_, rfl⟩
  · simp [newBagRows]
  · simp [newTransRows]
  · show ((db.transactions ++ newTransRows donor_id staff_id donor.blood_group uuid U).drop
        db.transactions.length).map (fun t => t.bag_id) =
      ((db.bags ++ newBagRows donor.blood_group d expiry donor_id uuid U).drop
        db.bags.length).map (fun b => b.bag_id)
    rw [List.drop_left, List.drop_left]
    simp [newBagRows, newTransRows, List.map_map, Function.comp]

/-- Witness for C5: recording 2 units for donor 1 on `wDB`. -/
theorem C5_donation_creates_U_rows_witness :
    (((2 : Nat) : Int) ≤ 3 ∧
     wDB.donors.find? (fun x => x.donor_id == 1) = some ⟨1, "A+"⟩ ∧
     dateReplaceYear ⟨2025, 1, 10⟩ ((2025 : Nat) + 1) = some ⟨2026, 1, 10⟩) ∧
    ((record_donation wDB wUuid 1 2 ((2 : Nat) : Int) ⟨2025, 1, 10⟩).1.bags.length =
       wDB.bags.length + 2 ∧
     (record_donation wDB wUuid 1 2 ((2 : Nat) : Int) ⟨2025, 1, 10⟩).1.transactions.length =
       wDB.transactions.length + 2 ∧
     ((record_donation wDB wUuid 1 2 ((2 : Nat) : Int) ⟨2025, 1, 10⟩).1.transactions.drop
         wDB.transactions.length).map (fun t => t.bag_id) =
       ((record_donation wDB wUuid 1 2 ((2 : Nat) : Int) ⟨2025, 1, 10⟩).1.bags.drop
         wDB.bags.length).map (fun b => b.bag_id) ∧
     (record_donation wDB wUuid 1 2 ((2 : Nat) : Int) ⟨2025, 1, 10⟩).2.1 = "success") :=
  ⟨⟨by decide, by decide, by decide⟩,
   C5_donation_creates_U_rows wDB wUuid 1 2 2 ⟨2025, 1, 10⟩ ⟨1, "A+"⟩ ⟨2026, 1, 10⟩
     (by decide) (by decide) (by decide)⟩

/-- C7: the donation handler rejects any POST with more than 3 units —
unchanged database, error flash — and no accepted session ever adds more
than 3 bags or 3 transactions. -/
theorem C7_donation_cap (db : DB) (uuid : Nat → String) (donor_id staff_id : Nat)
    (units_donated : Int) (d : Date) :
    (units_donated > 3 →
      record_donation db uuid donor_id staff_id units_donated d =
        (db, ("error", "Error: Cannot donate more than 3 units in a single session."))) ∧
    (record_donation db uuid donor_id staff_id units_donated d).1.bags.length ≤
      db.bags.length + 3 ∧
    (record_donation db uuid donor_id staff_id units_donated d).1.transactions.length ≤
      db.transactions.length + 3 := by
  refine ⟨fun hgt => by simp only [record_donation, if_pos hgt], ?_⟩
  by_cases hgt : units_donated > 3
  · simp only [record_donation, if_pos hgt]
    exact ⟨by omega, by omega⟩
  · simp only [record_donation, if_neg hgt]
    cases hdonor : db.donors.find? (fun x => x.donor_id == donor_id) with
    | none => exact ⟨Nat.le_add_right _ _, Nat.le_add_right _ _⟩
    | some donor =>
      cases hrep : dateReplaceYear d (d.year + 1) with
      | none => exact ⟨Nat.le_add_right _ _, Nat.le_add_right _ _⟩
      | some expiry =>
        have hn : units_donated.toNat ≤ 3 := by omega
        constructor
        · show (db.bags ++ newBagRows donor.blood_group d expiry donor_id uuid
              units_donated.toNat).length ≤ db.bags.length + 3
          simp [newBagRows]
          omega
        · show (db.transactions ++ newTransRows donor_id staff_id donor.blood_group uuid
              units_donated.toNat).length ≤ db.transactions.length + 3
          simp [newTransRows]
          omega

/-- Witness for C7: a POST of 4 units on `wDB` is rejected with the cap
error and the database is unchanged. -/
theorem C7_donation_cap_witness :
    ((4 : Int) > 3 →
      record_donation wDB wUuid 1 2 4 ⟨2025, 1, 10⟩ =
        (wDB, ("error", "Error: Cannot donate more than 3 units in a single session."))) ∧
    (record_donation wDB wUuid 1 2 4 ⟨2025, 1, 10⟩).1.bags.length ≤ wDB.bags.length + 3 ∧
    (record_donation wDB wUuid 1 2 4 ⟨2025, 1, 10⟩).1.transactions.length ≤
      wDB.transactions.length + 3 :=
  C7_donation_cap wDB wUuid 1 2 4 ⟨2025, 1, 10⟩

/-- C9: a POST with `units_donated` equal to 0 or negative passes the cap
check, runs the insertion loop zero times, commits, and reports success
with 0 units recorded — the database is unchanged. -/
theorem C9_nonpositive_units_accepted (db : DB) (uuid : Nat → String)
    (donor_id staff_id : Nat) (units_donated : Int) (d : Date) (donor : DonorRow) (expiry : Date)
    (hle : units_donated ≤ 0)
    (hdonor : db.donors.find? (fun x => x.donor_id == donor_id) = some donor)
    (hrep : dateReplaceYear d (d.year + 1) = some expiry) :
    record_donation db uuid donor_id staff_id units_donated d =
      (db, ("success", "Success! 0 units recorded. Stock updated (Trigger Verified 0 times).")) := by
  have hcap : ¬units_donated > 3 := by omega
  rw [record_donation_of_ok db uuid donor_id staff_id units_donated d donor expiry hcap hdonor hrep]
  have h0 : units_donated.toNat = 0 := by omega
  rw [h0]
  simp only [newBagRows, newTransRows, List.range_zero, List.map_nil, List.append_nil]
  rfl

/-- Witness for C9: recording -2 units for donor 1 on `wDB` succeeds and
changes nothing. -/
theorem C9_nonpositive_units_accepted_witness :
    ((-2 : Int) ≤ 0 ∧
     wDB.donors.find? (fun x => x.donor_id == 1) = some ⟨1, "A+"⟩ ∧
     dateReplaceYear ⟨2025, 1, 10⟩ ((2025 : Nat) + 1) = some ⟨2026, 1, 10⟩) ∧
    record_donation wDB wUuid 1 2 (-2) ⟨2025, 1, 10⟩ =
      (wDB, ("success", "Success! 0 units recorded. Stock updated (Trigger Verified 0 times).")) :=
  ⟨⟨by decide, by decide, by decide⟩,
   C9_nonpositive_units_accepted wDB wUuid 1 2 (-2) ⟨2025, 1, 10⟩ ⟨1, "A+"⟩ ⟨2026, 1, 10⟩
     (by decide) (by decide) (by decide)⟩

lemma daysInMonth_ge_28 (y m : Nat) : 28 ≤ daysInMonth y m := by
  unfold daysInMonth
  split
  · split <;> omega
  · split <;> omega

lemma daysInMonth_eq_of_ne_two (y y' m : Nat) (hm : m ≠ 2) :
    daysInMonth y m = daysInMonth y' m := by
  unfold daysInMonth
  rw [if_neg (by simp [hm] : ¬(m == 2) = true), if_neg (by simp [hm] : ¬(m == 2) = true)]

lemma daysInMonth_feb (y : Nat) : daysInMonth y 2 = 28 ∨ daysInMonth y 2 = 29 := by
  cases h : isLeapYear y <;> simp [daysInMonth, h]

/-- C6 is false as stated: 2024-02-29 is a valid calendar date (accepted by
`strptime`), yet `donation_date.replace(year=donation_date.year + 1)`
raises `ValueError`, so the donation is rolled back with an error flash and
no bag is created — the expiry computation does not succeed for every
valid calendar date. -/
theorem C6_expiry_feb29_counterexample :
    validDate ⟨2024, 2, 29⟩ = true ∧
    dateReplaceYear ⟨2024, 2, 29⟩ ((2024 : Nat) + 1) = none ∧
    record_donation wDB wUuid 1 2 2 ⟨2024, 2, 29⟩ =
      (wDB, ("error", "Donation failed. Error: day is out of range for month")) := by
  decide

/-- C6 amended: for every accepted donation date except February 29 (and
except dates in year 9999, whose successor year is outside Python's
supported range) the computed expiry is the same calendar day one year
later, and every newly created bag stores exactly that expiry; on the
excluded dates `date.replace` raises and the donation is rolled back. -/
theorem C6_expiry_plus_one_year (db : DB) (uuid : Nat → String)
    (donor_id staff_id : Nat) (units_donated : Int) (d : Date)
    (hvalid : validDate d = true)
    (hfeb : ¬(d.month = 2 ∧ d.day = 29)) (hmax : d.year ≠ 9999) :
    dateReplaceYear d (d.year + 1) = some ⟨d.year + 1, d.month, d.day⟩ ∧
    ∀ b ∈ (record_donation db uuid donor_id staff_id units_donated d).1.bags,
      b ∉ db.bags → b.expiry_date = ⟨d.year + 1, d.month, d.day⟩ := by
  simp only [validDate, Bool.and_eq_true, decide_eq_true_eq, and_assoc] at hvalid
  obtain ⟨h1, h2, h3, h4, h5, h6⟩ := hvalid
  have hv : validDate ⟨d.year + 1, d.month, d.day⟩ = true := by
    simp only [validDate, Bool.and_eq_true, decide_eq_true_eq, and_assoc]
    refine ⟨by omega, by omega, h3, h4, h5, ?_⟩
    show d.day ≤ daysInMonth (d.year + 1) d.month
    by_cases hm : d.month = 2
    · have hnot29 : d.day ≠ 29 := fun h29 => hfeb ⟨hm, h29⟩
      have hy : daysInMonth d.year d.month ≤ 29 := by
        rw [hm]
        rcases daysInMonth_feb d.year with h | h <;> omega
      have h28 : 28 ≤ daysInMonth (d.year + 1) d.month := daysInMonth_ge_28 _ _
      omega
    · rw [daysInMonth_eq_of_ne_two (d.year + 1) d.year d.month hm]
      exact h6
  have hrep : dateReplaceYear d (d.year + 1) = some ⟨d.year + 1, d.month, d.day⟩ := by
    simp only [dateReplaceYear]
    rw [if_pos hv]
  refine ⟨hrep, ?_⟩
  intro b hb hnb
  by_cases hgt : units_donated > 3
  · simp only [record_donation, if_pos hgt] at hb
    exact absurd hb hnb
  · cases hdonor : db.donors.find? (fun x => x.donor_id == donor_id) with
    | none =>
      simp only [record_donation, if_neg hgt, hdonor] at hb
      exact absurd hb hnb
    | some donor =>
      rw [record_donation_of_ok db uuid donor_id staff_id units_donated d donor
        ⟨d.year + 1, d.month, d.day⟩ hgt hdonor hrep] at hb
      rcases List.mem_append.mp hb with hbl | hbr
      · exact absurd hbl hnb
      · simp only [newBagRows] at hbr
        obtain ⟨i, _, hbe⟩ := List.mem_map.mp hbr
        subst hbe
        rfl

/-- Witness for the amended C6: recording 2 units on 2025-03-15. -/
theorem C6_expiry_plus_one_year_witness :
    (validDate ⟨2025, 3, 15⟩ = true ∧
     ¬((3 : Nat) = 2 ∧ (15 : Nat) = 29) ∧
     (2025 : Nat) ≠ 9999) ∧
    (dateReplaceYear ⟨2025, 3, 15⟩ ((2025 : Nat) + 1) = some ⟨2026, 3, 15⟩ ∧
     ∀ b ∈ (record_donation wDB wUuid 1 2 2 ⟨2025, 3, 15⟩).1.bags,
       b ∉ wDB.bags → b.expiry_date = ⟨2026, 3, 15⟩) :=
  ⟨⟨by decide, by decide, by decide⟩,
   C6_expiry_plus_one_year wDB wUuid 1 2 2 ⟨2025, 3, 15⟩ (by decide) (by decide) (by decide)⟩

/-- C8: if any SQL statement of the fulfillment operation or of donation
recording raises an exception, the enclosing transaction is rolled back —
the resulting table state equals the state before the operation — and a
user-facing error flash is produced. -/
theorem C8_exception_rollback (fail fail2 : Nat → Bool) (db db2 : DB) (request_id : Nat)
    (uuid : Nat → String) (donor_id staff_id : Nat) (units_donated : Int) (d : Date)
    (h1 : (fulfill_request_exc fail db request_id).2.2 = true)
    (h2 : (record_donation_exc fail2 db2 uuid donor_id staff_id units_donated d).2.2 = true) :
    (fulfill_request_exc fail db request_id).1 = db ∧
    (fulfill_request_exc fail db request_id).2.1.1 = "error" ∧
    (record_donation_exc fail2 db2 uuid donor_id staff_id units_donated d).1 = db2 ∧
    (record_donation_exc fail2 db2 uuid donor_id staff_id units_donated d).2.1.1 = "error" := by
  have hf : (fulfill_request_exc fail db request_id).1 = db ∧
      (fulfill_request_exc fail db request_id).2.1.1 = "error" := by
    by_cases f0 : fail 0 = true
    · simp only [fulfill_request_exc, if_pos f0]
      constructor <;> trivial
    · cases hfind : db.requests.find? (fun r => r.request_id == request_id) with
      | none =>
        simp only [fulfill_request_exc, if_neg f0, hfind] at h1
        simp at h1
      | some req =>
        by_cases f1 : fail 1 = true
        · simp only [fulfill_request_exc, if_neg f0, hfind, if_pos f1]
          constructor <;> trivial
        · by_cases hsel : (selectBags db req.requested_group req.units_requested).length ≥
              req.units_requested
          · by_cases f2 : fail 2 = true
            · simp only [fulfill_request_exc, if_neg f0, hfind, if_neg f1, if_pos hsel, if_pos f2]
              constructor <;> trivial
            · by_cases f3 : fail 3 = true
              · simp only [fulfill_request_exc, if_neg f0, hfind, if_neg f1, if_pos hsel,
                  if_neg f2, if_pos f3]
                constructor <;> trivial
              · simp only [fulfill_request_exc, if_neg f0, hfind, if_neg f1, if_pos hsel,
                  if_neg f2, if_neg f3] at h1
                simp at h1
          · by_cases f2 : fail 2 = true
            · simp only [fulfill_request_exc, if_neg f0, hfind, if_neg f1, if_neg hsel, if_pos f2]
              constructor <;> trivial
            · simp only [fulfill_request_exc, if_neg f0, hfind, if_neg f1, if_neg hsel,
                if_neg f2] at h1
              simp at h1
  have hr : (record_donation_exc fail2 db2 uuid donor_id staff_id units_donated d).1 = db2 ∧
      (record_donation_exc fail2 db2 uuid donor_id staff_id units_donated d).2.1.1 = "error" := by
    by_cases hgt : units_donated > 3
    · simp only [record_donation_exc, if_pos hgt] at h2
      simp at h2
    · by_cases f0 : fail2 0 = true
      · simp only [record_donation_exc, if_neg hgt, if_pos f0]
        constructor <;> trivial
      · cases hdonor : db2.donors.find? (fun x => x.donor_id == donor_id) with
        | none =>
          simp only [record_donation_exc, if_neg hgt, if_neg f0, hdonor]
          constructor <;> trivial
        | some donor =>
          cases hrep : dateReplaceYear d (d.year + 1) with
          | none =>
            simp only [record_donation_exc, if_neg hgt, if_neg f0, hdonor, hrep]
            constructor <;> trivial
          | some expiry =>
            by_cases floop : (List.range (2 * units_donated.toNat)).any
                (fun k => fail2 (k + 1)) = true
            · simp only [record_donation_exc, if_neg hgt, if_neg f0, hdonor, hrep, if_pos floop]
              constructor <;> trivial
            · simp only [record_donation_exc, if_neg hgt, if_neg f0, hdonor, hrep,
                if_neg floop] at h2
              simp at h2
  exact ⟨hf.1, hf.2, hr.1, hr.2⟩

/-- Witness for C8: with every statement failing, both operations return
the initial database and an error flash. -/
theorem C8_exception_rollback_witness :
    ((fulfill_request_exc (fun _ => true) wDB 1).2.2 = true ∧
     (record_donation_exc (fun _ => true) wDB wUuid 1 2 2 ⟨2025, 1, 10⟩).2.2 = true) ∧
    ((fulfill_request_exc (fun _ => true) wDB 1).1 = wDB ∧
     (fulfill_request_exc (fun _ => true) wDB 1).2.1.1 = "error" ∧
     (record_donation_exc (fun _ => true) wDB wUuid 1 2 2 ⟨2025, 1, 10⟩).1 = wDB ∧
     (record_donation_exc (fun _ => true) wDB wUuid 1 2 2 ⟨2025, 1, 10⟩).2.1.1 = "error") :=
  ⟨⟨by decide, by decide⟩,
   C8_exception_rollback (fun _ => true) (fun _ => true) wDB wDB 1 wUuid 1 2 2 ⟨2025, 1, 10⟩
     (by decide) (by decide)⟩

/-- C10: `get_dashboard_stats` never propagates an exception — it returns
a record with both counts for every query outcome, and a failing query
leaves the counts not yet fetched at 0 (both 0 when the first query
fails). -/
theorem C10_dashboard_stats_fallback (db : DB) (fail1 fail2 : Bool) :
    (fail1 = true → get_dashboard_stats db fail1 fail2 = ⟨0, 0⟩) ∧
    (fail1 = false → fail2 = true →
      get_dashboard_stats db fail1 fail2 = ⟨db.donors.length, 0⟩) ∧
    (fail1 = false → fail2 = false →
      get_dashboard_stats db fail1 fail2 =
        ⟨db.donors.length,
         (db.bags.filter (fun b => b.status == BagStatus.available)).length⟩) := by
  refine ⟨fun h1 => ?_, fun h1 h2 => ?_, fun h1 h2 => ?_⟩
  · subst h1; rfl
  · subst h1; subst h2; rfl
  · subst h1; subst h2; rfl

/-- Witness for C10 at `wDB` with the first query failing. -/
theorem C10_dashboard_stats_fallback_witness :
    (true = true → get_dashboard_stats wDB true true = ⟨0, 0⟩) ∧
    (true = false → true = true → get_dashboard_stats wDB true true = ⟨wDB.donors.length, 0⟩) ∧
    (true = false → true = false →
      get_dashboard_stats wDB true true =
        ⟨wDB.donors.length,
         (wDB.bags.filter (fun b => b.status == BagStatus.available)).length⟩) :=
  C10_dashboard_stats_fallback wDB true true
